import Mathlib

/-!
Verification of the macOS backend of a cross-process memory access layer
(`src/macos.rs`). The backend wraps three foreign mach kernel calls:
`task_for_pid` (handle resolution), `mach_vm_write` (write), and
`vm_read_overwrite` (read). We embed the Rust wrappers as pure functions
over an explicit model of the foreign interface: a structure `OS σ` whose
fields are the three kernel entry points, threading an abstract kernel
state `σ`. Theorems quantified over an arbitrary `OS σ` capture exactly
the control flow of the Rust wrappers; a concrete instance `KernelOS`
models the kernel semantics described by the source's FFI doc comments
and the specification, for claims that depend on kernel behaviour.
-/

namespace ProcessMemory

/-- `KERN_SUCCESS` from mach `kern_return.h` (value 0). -/
def KERN_SUCCESS : Int := 0

/-- `KERN_FAILURE` from mach `kern_return.h` (value 5); used only by the
kernel model as a generic non-success status. -/
def KERN_FAILURE : Int := 5

/-- `MACH_PORT_NULL`: the initial value of the `task` out-parameter in
`task_for_pid`. -/
def MACH_PORT_NULL : Nat := 0

/-- On OS X a `ProcessHandle` is a mach port name (`mach_port_name_t`, a
32-bit unsigned value); modelled as a natural number. -/
abbrev ProcessHandle := Nat

/-- On OS X a `Pid` is a `libc::pid_t` (signed 32-bit); modelled as an
integer. -/
abbrev Pid := Int

/-- The error type of the backend, mirroring `std::io::Error` as the code
uses it: either `Error::last_os_error()` (carrying the platform error
code) or the hand-built mismatched-read-size error (kind `BrokenPipe`)
carrying the expected and actual byte counts. -/
inductive IoError where
  | osError (code : Int)
  | mismatchedRead (expected actual : Nat)
  deriving DecidableEq, Repr

/-- Equality of `Except` results is decidable when it is on both sides. -/
instance {α β : Type} [DecidableEq α] [DecidableEq β] : DecidableEq (Except α β) :=
  fun x y =>
    match x, y with
    | .ok a, .ok b =>
        if h : a = b then .isTrue (by rw [h])
        else .isFalse (by intro he; cases he; exact h rfl)
    | .error a, .error b =>
        if h : a = b then .isTrue (by rw [h])
        else .isFalse (by intro he; cases he; exact h rfl)
    | .ok _, .error _ => .isFalse (by intro he; cases he)
    | .error _, .ok _ => .isFalse (by intro he; cases he)

/-- Result of one `task_for_pid` trap: the returned `kern_return_t`, the
value held by the `task` out-parameter after the call, the platform
last-error code observable after the call, and the kernel state after the
call. -/
structure TaskReturn (σ : Type) where
  ret : Int
  task : ProcessHandle
  errCode : Int
  st : σ

/-- Result of one `mach_vm_write` call: the returned `kern_return_t`, the
platform last-error code observable after the call, and the kernel state
after the call. The real call returns no byte count, only a status. -/
structure WriteReturn (σ : Type) where
  ret : Int
  errCode : Int
  st : σ

/-- Result of one `vm_read_overwrite` call: the returned `kern_return_t`,
the bytes the call deposited into the destination buffer, the value it
stored into the `outsize` out-parameter, the platform last-error code
observable after the call, and the kernel state after the call. -/
structure ReadReturn (σ : Type) where
  ret : Int
  bytes : List Nat
  outsize : Nat
  errCode : Int
  st : σ

/-- Model of the foreign OS interface declared in `src/macos.rs`: the
caller's own task port (`mach_task_self`), the `task_for_pid` trap taking
the caller's task and the target pid, the write primitive
`mach_vm_write (target_task, address, data, data_count)`, and the read
primitive `vm_read_overwrite (target_task, address, size, data, outsize)`.
Each call takes and returns the abstract kernel state `σ`, so a wrapper's
resulting state records exactly which calls it issued. -/
structure OS (σ : Type) where
  mach_task_self : ProcessHandle
  task_for_pid_trap : σ → ProcessHandle → Pid → TaskReturn σ
  mach_vm_write : σ → ProcessHandle → Nat → List Nat → Nat → WriteReturn σ
  vm_read_overwrite : σ → ProcessHandle → Nat → Nat → ReadReturn σ

/-- The Rust cast `buf.len() as mach_msg_type_number_t`: `usize` (64-bit
on this target) narrowed to the 32-bit `mach_msg_type_number_t`, which
wraps modulo 2^32. -/
def usize_as_u32 (n : Nat) : Nat := n % 2 ^ 32

/-- The Rust cast `self.id() as pid_t`: an unsigned 32-bit value
reinterpreted as a signed 32-bit value (two's complement). -/
def u32_as_i32 (n : Nat) : Int := if n < 2 ^ 31 then (n : Int) else (n : Int) - 2 ^ 32

/-- `fn task_for_pid(pid: Pid) -> std::io::Result<mach_port_name_t>` from
`src/macos.rs`: issues one `task_for_pid` trap with the caller's own task
context and the target pid; on a non-success status returns
`Error::last_os_error()`, otherwise returns the task written by the trap.
Returns the result together with the kernel state after the call. -/
def task_for_pid {σ : Type} (os : OS σ) (s : σ) (pid : Pid) :
    Except IoError ProcessHandle × σ :=
  let r := os.task_for_pid_trap s os.mach_task_self pid
  if r.ret ≠ KERN_SUCCESS then (.error (.osError r.errCode), r.st)
  else (.ok r.task, r.st)

/-- `impl TryIntoProcessHandle for Pid`: delegates to `task_for_pid`. -/
def Pid.try_into_process_handle {σ : Type} (os : OS σ) (s : σ) (pid : Pid) :
    Except IoError ProcessHandle × σ :=
  task_for_pid os s pid

/-- `std::process::Child` as the backend uses it: only its `id()`, an
unsigned 32-bit process identifier. -/
structure Child where
  id : Nat

/-- `impl TryIntoProcessHandle for Child`: calls the `Pid` implementation
on `self.id() as _`, an unsigned-to-signed 32-bit cast. -/
def Child.try_into_process_handle {σ : Type} (os : OS σ) (s : σ) (c : Child) :
    Except IoError ProcessHandle × σ :=
  Pid.try_into_process_handle os s (u32_as_i32 c.id)

/-- `impl PutAddress for ProcessHandle`: one `mach_vm_write` call with the
handle, the address, the buffer, and `buf.len() as mach_msg_type_number_t`
(a 32-bit count); on a non-success status returns
`Error::last_os_error()`, otherwise `Ok(())`. Returns the result together
with the kernel state after the call. -/
def put_address {σ : Type} (os : OS σ) (s : σ) (h : ProcessHandle) (addr : Nat)
    (buf : List Nat) : Except IoError Unit × σ :=
  let r := os.mach_vm_write s h addr buf (usize_as_u32 buf.length)
  if r.ret ≠ KERN_SUCCESS then (.error (.osError r.errCode), r.st)
  else (.ok (), r.st)

/-- The effect of `vm_read_overwrite` on the caller's destination buffer:
the bytes the kernel deposited overwrite the front of the buffer, the rest
keeps its old contents; the buffer's length never changes. -/
def overwriteFront (dst bytes : List Nat) : List Nat :=
  bytes.take dst.length ++ dst.drop bytes.length

/-- `impl CopyAddress for ProcessHandle`: one `vm_read_overwrite` call
with the handle, the address, `buf.len()` as the size, and the buffer as
destination. On a non-success status returns `Error::last_os_error()`;
on success compares the `outsize` out-parameter against `buf.len()` and
returns `Ok(())` on equality, else the mismatched-read-sizes error
carrying expected (`buf.len()`) and actual (`read_len`). Returns the
result together with the buffer contents after the call and the kernel
state after the call. (`usize` and the `u64` out-parameter have the same
width on this target, so the `buf.len() as u64` in the comparison is the
identity.) -/
def copy_address {σ : Type} (os : OS σ) (s : σ) (h : ProcessHandle) (addr : Nat)
    (buf : List Nat) : Except IoError Unit × List Nat × σ :=
  let r := os.vm_read_overwrite s h addr buf.length
  let buf1 := overwriteFront buf r.bytes
  if r.ret ≠ KERN_SUCCESS then (.error (.osError r.errCode), buf1, r.st)
  else if r.outsize = buf.length then (.ok (), buf1, r.st)
  else (.error (.mismatchedRead buf.length r.outsize), buf1, r.st)

/-- Kernel state for the concrete kernel model: the target process's
memory as a byte map, and which addresses are writable and readable. -/
structure KernelState where
  mem : Nat → Nat
  writable : Nat → Bool
  readable : Nat → Bool

/-- Whether `p` holds at every address of the range starting at `addr` of
length `n`. -/
def rangeAll (p : Nat → Bool) (addr n : Nat) : Bool :=
  (List.range n).all fun i => p (addr + i)

/-- Memory after a kernel write of the first `count` bytes of `data` at
`addr`: addresses in the range take the corresponding byte of `data`,
every other address keeps its old byte. -/
def writeMem (m : Nat → Nat) (addr : Nat) (data : List Nat) (count : Nat) :
    Nat → Nat :=
  fun a => if addr ≤ a ∧ a < addr + count then data.getD (a - addr) 0 else m a

/-- Modelled from the spec: the bodies of the foreign kernel calls
declared (but not defined) in `src/macos.rs`. Per the source's FFI doc
comments and the specification's description of the platform OS calls,
`mach_vm_write` copies exactly `data_count` bytes to the target address
and succeeds iff the whole range is writable; `vm_read_overwrite` reads
exactly `size` bytes from the target address into the destination and
reports the actual size read through `outsize`, succeeding iff the whole
range is readable; the `task_for_pid` trap grants a task port for a
reachable pid (here: any non-negative pid) and fails otherwise. Reads
leave the target memory unchanged. -/
def KernelOS : OS KernelState where
  mach_task_self := 0
  task_for_pid_trap := fun k _self pid =>
    if 0 ≤ pid then ⟨KERN_SUCCESS, pid.toNat, 0, k⟩
    else ⟨KERN_FAILURE, MACH_PORT_NULL, 3, k⟩
  mach_vm_write := fun k _task addr data count =>
    if rangeAll k.writable addr count then
      ⟨KERN_SUCCESS, 0, { k with mem := writeMem k.mem addr data count }⟩
    else ⟨KERN_FAILURE, 1, k⟩
  vm_read_overwrite := fun k _task addr size =>
    if rangeAll k.readable addr size then
      ⟨KERN_SUCCESS, (List.range size).map (fun i => k.mem (addr + i)), size, 0, k⟩
    else ⟨KERN_FAILURE, [], 0, 1, k⟩

/-- A fully accessible kernel state holding all-zero memory. -/
def k0 : KernelState where
  mem := fun _ => 0
  writable := fun _ => true
  readable := fun _ => true

/-- A kernel state in which no address is mapped. -/
def kUnmapped : KernelState where
  mem := fun _ => 0
  writable := fun _ => false
  readable := fun _ => false

/-- A stateless oracle returning fixed call outcomes; used to exercise the
wrappers on concrete inputs. -/
def toyOS (ret : Int) (bytes : List Nat) (outsize : Nat) (err : Int) : OS Unit where
  mach_task_self := 0
  task_for_pid_trap := fun _ _ _ => ⟨ret, 0, err, ()⟩
  mach_vm_write := fun _ _ _ _ _ => ⟨ret, err, ()⟩
  vm_read_overwrite := fun _ _ _ _ => ⟨ret, bytes, outsize, err, ()⟩

/-- Helper: `copy_address` written as one case split on the outcome of the
single `vm_read_overwrite` call it issues. -/
theorem copy_address_def {σ : Type} (os : OS σ) (s : σ) (h : ProcessHandle)
    (addr : Nat) (buf : List Nat) :
    copy_address os s h addr buf =
      ((if (os.vm_read_overwrite s h addr buf.length).ret = KERN_SUCCESS then
          if (os.vm_read_overwrite s h addr buf.length).outsize = buf.length then
            .ok ()
          else
            .error (.mismatchedRead buf.length
              (os.vm_read_overwrite s h addr buf.length).outsize)
        else .error (.osError (os.vm_read_overwrite s h addr buf.length).errCode)),
       overwriteFront buf (os.vm_read_overwrite s h addr buf.length).bytes,
       (os.vm_read_overwrite s h addr buf.length).st) := by
  unfold copy_address
  by_cases h1 : (os.vm_read_overwrite s h addr buf.length).ret = KERN_SUCCESS
  · by_cases h2 : (os.vm_read_overwrite s h addr buf.length).outsize = buf.length <;>
      simp [h1, h2]
  · simp [h1]

/-- Claim C1: for every oracle, handle, address, and destination buffer,
`copy_address` returns success iff the `vm_read_overwrite` call reports
`KERN_SUCCESS` and the reported `outsize` equals the buffer's length; any
non-success status is returned as an error carrying the platform's last
error code. -/
theorem copy_address_success_iff {σ : Type} (os : OS σ) (s : σ) (h : ProcessHandle)
    (addr : Nat) (buf : List Nat) :
    ((copy_address os s h addr buf).1 = .ok () ↔
      ((os.vm_read_overwrite s h addr buf.length).ret = KERN_SUCCESS ∧
       (os.vm_read_overwrite s h addr buf.length).outsize = buf.length)) ∧
    ((os.vm_read_overwrite s h addr buf.length).ret ≠ KERN_SUCCESS →
      (copy_address os s h addr buf).1 =
        .error (.osError (os.vm_read_overwrite s h addr buf.length).errCode)) := by
  rw [copy_address_def]
  by_cases h1 : (os.vm_read_overwrite s h addr buf.length).ret = KERN_SUCCESS
  · by_cases h2 : (os.vm_read_overwrite s h addr buf.length).outsize = buf.length <;>
      simp [h1, h2]
  · simp [h1]

/-- Witness for C1 at a concrete failing oracle: a status of 5 with
last-error code 7 yields `osError 7`. -/
theorem copy_address_success_iff_witness :
    (copy_address (toyOS 5 [] 0 7) () 0 0 [0]).1 = .error (.osError 7) :=
  (copy_address_success_iff (toyOS 5 [] 0 7) () 0 0 [0]).2 (by decide)

/-- Claim C3: when the `vm_read_overwrite` call reports `KERN_SUCCESS` but
the reported `outsize` differs from the requested buffer length,
`copy_address` returns the mismatched-read error carrying both the
expected and the actual byte counts, and that error is distinct from
every `osError`. -/
theorem copy_address_mismatched_transfer {σ : Type} (os : OS σ) (s : σ)
    (h : ProcessHandle) (addr : Nat) (buf : List Nat)
    (h1 : (os.vm_read_overwrite s h addr buf.length).ret = KERN_SUCCESS)
    (h2 : (os.vm_read_overwrite s h addr buf.length).outsize ≠ buf.length) :
    (copy_address os s h addr buf).1 =
      .error (.mismatchedRead buf.length
        (os.vm_read_overwrite s h addr buf.length).outsize) ∧
    ∀ c : Int,
      IoError.mismatchedRead buf.length
        (os.vm_read_overwrite s h addr buf.length).outsize ≠ .osError c := by
  rw [copy_address_def]
  simp [h1, h2]

/-- Witness for C3 at a concrete oracle: success status with `outsize` 5
against a 2-byte buffer yields `mismatchedRead 2 5`, which is not
`osError 9`. -/
theorem copy_address_mismatched_transfer_witness :
    (copy_address (toyOS 0 [] 5 9) () 0 0 [0, 0]).1 = .error (.mismatchedRead 2 5) ∧
    IoError.mismatchedRead 2 5 ≠ IoError.osError 9 :=
  ⟨(copy_address_mismatched_transfer (toyOS 0 [] 5 9) () 0 0 [0, 0]
      (by decide) (by decide)).1,
   (copy_address_mismatched_transfer (toyOS 0 [] 5 9) () 0 0 [0, 0]
      (by decide) (by decide)).2 9⟩

/-- Claim C4: `put_address` is exactly one `mach_vm_write` call with count
`buf.len() as u32`: it returns success iff that call reports
`KERN_SUCCESS`, returns `osError` with the platform's last error code on
any non-success status, and the resulting kernel state is precisely the
state after that single write call — no `outsize` verification and no
read-back occurs. -/
theorem put_address_success_iff {σ : Type} (os : OS σ) (s : σ) (h : ProcessHandle)
    (addr : Nat) (buf : List Nat) :
    put_address os s h addr buf =
      ((if (os.mach_vm_write s h addr buf (usize_as_u32 buf.length)).ret = KERN_SUCCESS
        then .ok ()
        else .error (.osError
          (os.mach_vm_write s h addr buf (usize_as_u32 buf.length)).errCode)),
       (os.mach_vm_write s h addr buf (usize_as_u32 buf.length)).st) := by
  unfold put_address
  by_cases h1 :
      (os.mach_vm_write s h addr buf (usize_as_u32 buf.length)).ret = KERN_SUCCESS <;>
    simp [h1]

/-- Claim C5: resolving a handle from a `Pid` issues exactly one
`task_for_pid` trap, called with the caller's own task context and the
target pid: the result and the resulting kernel state are precisely those
of that single call, a non-success status becomes `osError` with the
platform's last error code, and a handle is returned only on
`KERN_SUCCESS`; the `Pid` implementation of `try_into_process_handle` is
exactly `task_for_pid`. -/
theorem resolve_single_request {σ : Type} (os : OS σ) (s : σ) (pid : Pid) :
    Pid.try_into_process_handle os s pid = task_for_pid os s pid ∧
    task_for_pid os s pid =
      ((if (os.task_for_pid_trap s os.mach_task_self pid).ret = KERN_SUCCESS
        then .ok (os.task_for_pid_trap s os.mach_task_self pid).task
        else .error (.osError (os.task_for_pid_trap s os.mach_task_self pid).errCode)),
       (os.task_for_pid_trap s os.mach_task_self pid).st) := by
  refine ⟨rfl, ?_⟩
  unfold task_for_pid
  by_cases h1 : (os.task_for_pid_trap s os.mach_task_self pid).ret = KERN_SUCCESS <;>
    simp [h1]

/-- Claim C8: for every oracle outcome, the three operations are total and
return a typed result from a fixed set of constructors — `ok`, `osError`
with the call's last error code, or (for reads) the mismatched-read error;
in particular, over the kernel model, `copy_address` at the unmapped
address 1 with a 16-byte buffer returns a failure result. -/
theorem operations_total {σ : Type} (os : OS σ) (s : σ) (h : ProcessHandle)
    (addr : Nat) (buf : List Nat) (pid : Pid) :
    ((copy_address os s h addr buf).1 = .ok () ∨
     (copy_address os s h addr buf).1 =
       .error (.osError (os.vm_read_overwrite s h addr buf.length).errCode) ∨
     (copy_address os s h addr buf).1 =
       .error (.mismatchedRead buf.length
         (os.vm_read_overwrite s h addr buf.length).outsize)) ∧
    ((put_address os s h addr buf).1 = .ok () ∨
     (put_address os s h addr buf).1 =
       .error (.osError
         (os.mach_vm_write s h addr buf (usize_as_u32 buf.length)).errCode)) ∧
    ((task_for_pid os s pid).1 =
       .ok (os.task_for_pid_trap s os.mach_task_self pid).task ∨
     (task_for_pid os s pid).1 =
       .error (.osError (os.task_for_pid_trap s os.mach_task_self pid).errCode)) ∧
    (copy_address KernelOS kUnmapped 0 1 (List.replicate 16 0)).1 =
      .error (.osError 1) := by
  refine ⟨?_, ?_, ?_, by decide⟩
  · rw [copy_address_def]
    by_cases h1 : (os.vm_read_overwrite s h addr buf.length).ret = KERN_SUCCESS
    · by_cases h2 : (os.vm_read_overwrite s h addr buf.length).outsize = buf.length <;>
        simp [h1, h2]
    · simp [h1]
  · rw [put_address_success_iff]
    by_cases h1 :
        (os.mach_vm_write s h addr buf (usize_as_u32 buf.length)).ret = KERN_SUCCESS <;>
      simp [h1]
  · rw [(resolve_single_request os s pid).2]
    by_cases h1 : (os.task_for_pid_trap s os.mach_task_self pid).ret = KERN_SUCCESS <;>
      simp [h1]

/-- Claim C6 (amended): resolving a handle from a `Child` is exactly the
`Pid`-based resolver applied to the child's id reinterpreted as a signed
32-bit value (the id itself whenever the id is below `2^31`). -/
theorem child_resolution_delegates {σ : Type} (os : OS σ) (s : σ) (c : Child) :
    Child.try_into_process_handle os s c =
      Pid.try_into_process_handle os s (u32_as_i32 c.id) ∧
    (c.id < 2 ^ 31 → u32_as_i32 c.id = (c.id : Int)) := by
  refine ⟨rfl, fun hsmall => ?_⟩
  unfold u32_as_i32
  rw [if_pos hsmall]

/-- Witness for C6 at a small concrete id. -/
theorem child_resolution_delegates_witness :
    Child.try_into_process_handle (toyOS 0 [] 0 0) () ⟨42⟩ =
      Pid.try_into_process_handle (toyOS 0 [] 0 0) () (u32_as_i32 42) ∧
    u32_as_i32 42 = (42 : Int) :=
  ⟨(child_resolution_delegates (toyOS 0 [] 0 0) () ⟨42⟩).1,
   (child_resolution_delegates (toyOS 0 [] 0 0) () ⟨42⟩).2 (by decide)⟩

/-- Counterexample to C6 as stated: over the kernel model, a child whose
id is `2^31` resolves differently from the `Pid`-based resolver applied to
the id itself — the wrapping cast hands the resolver `-2^31` instead. -/
theorem child_resolution_counterexample :
    (Child.try_into_process_handle KernelOS k0 ⟨2147483648⟩).1 ≠
      (Pid.try_into_process_handle KernelOS k0 (2147483648 : Int)).1 := by
  decide

/-- Claim C10: for every child id in `[2^31, 2^32)`, the cast from the
unsigned 32-bit id to the signed pid is the negative two's-complement
reinterpretation `id - 2^32`, and `Child` handle resolution hands that
negative pid to the resolver. -/
theorem child_id_wrapping_cast {σ : Type} (os : OS σ) (s : σ) (c : Child)
    (h1 : 2 ^ 31 ≤ c.id) (h2 : c.id < 2 ^ 32) :
    u32_as_i32 c.id = (c.id : Int) - 2 ^ 32 ∧
    u32_as_i32 c.id < 0 ∧
    Child.try_into_process_handle os s c =
      Pid.try_into_process_handle os s ((c.id : Int) - 2 ^ 32) := by
  have hcast : u32_as_i32 c.id = (c.id : Int) - 2 ^ 32 := by
    unfold u32_as_i32
    rw [if_neg (Nat.not_lt.mpr h1)]
  refine ⟨hcast, ?_, ?_⟩
  · rw [hcast]
    have : (c.id : Int) < 2 ^ 32 := by exact_mod_cast h2
    omega
  · show Pid.try_into_process_handle os s (u32_as_i32 c.id) = _
    rw [hcast]

/-- Witness for C10 at id `2^31`. -/
theorem child_id_wrapping_cast_witness :
    2 ^ 31 ≤ 2147483648 ∧ 2147483648 < 2 ^ 32 ∧
    (u32_as_i32 2147483648 = (2147483648 : Int) - 2 ^ 32 ∧
     u32_as_i32 2147483648 < 0 ∧
     Child.try_into_process_handle (toyOS 0 [] 0 0) () ⟨2147483648⟩ =
       Pid.try_into_process_handle (toyOS 0 [] 0 0) ()
         ((2147483648 : Int) - 2 ^ 32)) :=
  ⟨by decide, by decide,
   child_id_wrapping_cast (toyOS 0 [] 0 0) () ⟨2147483648⟩ (by decide) (by decide)⟩

/-- Claim C9: `put_address` passes the buffer length to `mach_vm_write` as
a 32-bit count, so for a buffer of at least `2^32` bytes the count
actually requested is `len mod 2^32`, strictly less than the buffer
length; the whole call is characterized by the single write call at that
truncated count. -/
theorem put_address_count_truncated {σ : Type} (os : OS σ) (s : σ)
    (h : ProcessHandle) (addr : Nat) (buf : List Nat)
    (hbig : 2 ^ 32 ≤ buf.length) :
    usize_as_u32 buf.length = buf.length % 2 ^ 32 ∧
    usize_as_u32 buf.length < buf.length ∧
    put_address os s h addr buf =
      ((if (os.mach_vm_write s h addr buf (usize_as_u32 buf.length)).ret = KERN_SUCCESS
        then .ok ()
        else .error (.osError
          (os.mach_vm_write s h addr buf (usize_as_u32 buf.length)).errCode)),
       (os.mach_vm_write s h addr buf (usize_as_u32 buf.length)).st) := by
  refine ⟨rfl, ?_, put_address_success_iff os s h addr buf⟩
  have hpos : 0 < 2 ^ 32 := by norm_num
  calc usize_as_u32 buf.length = buf.length % 2 ^ 32 := rfl
    _ < 2 ^ 32 := Nat.mod_lt _ hpos
    _ ≤ buf.length := hbig

/-- Witness for C9 at a concrete 4-GiB buffer. -/
theorem put_address_count_truncated_witness :
    2 ^ 32 ≤ (List.replicate (2 ^ 32) 0).length ∧
    usize_as_u32 (List.replicate (2 ^ 32) (0 : Nat)).length <
      (List.replicate (2 ^ 32) (0 : Nat)).length :=
  ⟨by rw [List.length_replicate],
   (put_address_count_truncated (toyOS 0 [] 0 0) () 0 0 (List.replicate (2 ^ 32) 0)
      (by rw [List.length_replicate])).2.1⟩

/-- Helper: a pointwise bound on a predicate gives `rangeAll`. -/
theorem rangeAll_of_pointwise (p : Nat → Bool) (addr n : Nat)
    (hp : ∀ i, i < n → p (addr + i) = true) : rangeAll p addr n = true := by
  rw [rangeAll, List.all_eq_true]
  intro i hi
  exact hp i (List.mem_range.mp hi)

/-- Claim C7: over the kernel model, `copy_address` with a zero-length
destination buffer returns success, leaves the buffer empty, and leaves
the kernel state untouched, for every kernel state, handle, and
address. -/
theorem copy_address_zero_length (k : KernelState) (h : ProcessHandle) (addr : Nat) :
    copy_address KernelOS k h addr [] = (.ok (), [], k) := rfl

/-- Helper: `put_address` over the kernel model on a fully writable range
succeeds and installs exactly the written bytes. -/
theorem put_address_kernel (k : KernelState) (h : ProcessHandle) (addr : Nat)
    (buf : List Nat)
    (hw : rangeAll k.writable addr (usize_as_u32 buf.length) = true) :
    put_address KernelOS k h addr buf =
      (.ok (), { k with mem := writeMem k.mem addr buf (usize_as_u32 buf.length) }) := by
  unfold put_address
  show (let r := KernelOS.mach_vm_write k h addr buf (usize_as_u32 buf.length); _) = _
  simp only [KernelOS]
  rw [if_pos hw]
  simp [KERN_SUCCESS]

/-- Helper: `copy_address` over the kernel model on a fully readable range
succeeds and returns exactly the bytes of the target memory at the
requested range. -/
theorem copy_address_kernel (k : KernelState) (h : ProcessHandle) (addr : Nat)
    (dst : List Nat)
    (hr : rangeAll k.readable addr dst.length = true) :
    copy_address KernelOS k h addr dst =
      (.ok (), (List.range dst.length).map (fun i => k.mem (addr + i)), k) := by
  unfold copy_address
  show (let r := KernelOS.vm_read_overwrite k h addr dst.length; _) = _
  simp only [KernelOS]
  rw [if_pos hr]
  simp only [KERN_SUCCESS]
  rw [if_neg (by simp), if_pos trivial]
  rw [overwriteFront, List.length_map, List.length_range, List.drop_length,
    List.append_nil,
    List.take_of_length_le (by rw [List.length_map, List.length_range])]

/-- Helper: reading back a freshly written range returns the written
bytes. -/
theorem readback_writeMem (m : Nat → Nat) (addr : Nat) (buf : List Nat) :
    (List.range buf.length).map
        (fun i => writeMem m addr buf buf.length (addr + i)) = buf := by
  apply List.ext_getElem
  · rw [List.length_map, List.length_range]
  · intro i h1 h2
    rw [List.getElem_map, List.getElem_range, writeMem]
    have hi : i < buf.length := h2
    rw [if_pos ⟨Nat.le_add_right addr i, by omega⟩]
    rw [Nat.add_sub_cancel_left]
    exact List.getD_eq_getElem buf 0 hi

/-- Claim C2 (amended): over the kernel model, for every buffer shorter
than `2^32` bytes, a `put_address` of that buffer at a writable-and-
readable address followed immediately by a `copy_address` of the same
length at the same address both return success, and the bytes read back
equal the bytes written. -/
theorem roundtrip_law (k : KernelState) (h : ProcessHandle) (addr : Nat)
    (buf dst : List Nat) (hlen : buf.length < 2 ^ 32)
    (hdst : dst.length = buf.length)
    (hw : ∀ i, i < buf.length → k.writable (addr + i) = true)
    (hr : ∀ i, i < buf.length → k.readable (addr + i) = true) :
    (put_address KernelOS k h addr buf).1 = .ok () ∧
    (copy_address KernelOS (put_address KernelOS k h addr buf).2 h addr dst).1 =
      .ok () ∧
    (copy_address KernelOS (put_address KernelOS k h addr buf).2 h addr dst).2.1 =
      buf := by
  have hcount : usize_as_u32 buf.length = buf.length := Nat.mod_eq_of_lt hlen
  have hwAll : rangeAll k.writable addr (usize_as_u32 buf.length) = true := by
    rw [hcount]
    exact rangeAll_of_pointwise _ _ _ hw
  have hput := put_address_kernel k h addr buf hwAll
  set k1 : KernelState :=
    { k with mem := writeMem k.mem addr buf (usize_as_u32 buf.length) } with hk1
  have hrAll : rangeAll k1.readable addr dst.length = true := by
    rw [hdst]
    exact rangeAll_of_pointwise _ _ _ hr
  have hcopy := copy_address_kernel k1 h addr dst hrAll
  rw [hput]
  refine ⟨rfl, ?_, ?_⟩
  · rw [hcopy]
  · rw [hcopy]
    show (List.range dst.length).map (fun i => k1.mem (addr + i)) = buf
    rw [hdst, hk1]
    show (List.range buf.length).map
        (fun i => writeMem k.mem addr buf (usize_as_u32 buf.length) (addr + i)) = buf
    rw [hcount]
    exact readback_writeMem k.mem addr buf

/-- Witness for C2 at the specification's own scenario: write the four
bytes `0xDE 0xAD 0xBE 0xEF` at address 16 of a fully accessible target and
read four bytes back. -/
theorem roundtrip_law_witness :
    (put_address KernelOS k0 0 16 [222, 173, 190, 239]).1 = .ok () ∧
    (copy_address KernelOS (put_address KernelOS k0 0 16 [222, 173, 190, 239]).2
        0 16 [0, 0, 0, 0]).1 = .ok () ∧
    (copy_address KernelOS (put_address KernelOS k0 0 16 [222, 173, 190, 239]).2
        0 16 [0, 0, 0, 0]).2.1 = [222, 173, 190, 239] :=
  roundtrip_law k0 0 16 [222, 173, 190, 239] [0, 0, 0, 0] (by decide) (by decide)
    (fun _ _ => rfl) (fun _ _ => rfl)

/-- Helper: for any positive buffer length whose 32-bit narrowing is 0,
the write-then-read round trip over the kernel model reports success twice
yet does not return the written bytes — nothing was written. -/
theorem roundtrip_wrap_fail (n : Nat) (hn : 0 < n) (hmod : usize_as_u32 n = 0) :
    (put_address KernelOS k0 0 0 (List.replicate n 1)).1 = .ok () ∧
    (copy_address KernelOS (put_address KernelOS k0 0 0 (List.replicate n 1)).2
        0 0 (List.replicate n 0)).1 = .ok () ∧
    (copy_address KernelOS (put_address KernelOS k0 0 0 (List.replicate n 1)).2
        0 0 (List.replicate n 0)).2.1 ≠ List.replicate n 1 := by
  have hcount : usize_as_u32 (List.replicate n (1 : Nat)).length = 0 := by
    rw [List.length_replicate]
    exact hmod
  have hwAll : rangeAll k0.writable 0
      (usize_as_u32 (List.replicate n (1 : Nat)).length) = true := by
    rw [hcount]
    rfl
  have hput := put_address_kernel k0 0 0 (List.replicate n 1) hwAll
  set k1 : KernelState := { k0 with mem := writeMem k0.mem 0 (List.replicate n 1) (usize_as_u32 (List.replicate n (1 : Nat)).length) } with hk1
  have hrAll : rangeAll k1.readable 0 (List.replicate n (0 : Nat)).length =
      true :=
    rangeAll_of_pointwise _ _ _ (fun _ _ => rfl)
  have hcopy := copy_address_kernel k1 0 0 (List.replicate n 0) hrAll
  rw [hput]
  refine ⟨rfl, ?_, ?_⟩
  · rw [hcopy]
  · rw [hcopy]
    intro hEq
    have hmem0 : k1.mem (0 + 0) = 0 := by
      rw [hk1]
      show writeMem k0.mem 0 (List.replicate n 1)
        (usize_as_u32 (List.replicate n (1 : Nat)).length) (0 + 0) = 0
      rw [hcount, writeMem]
      rw [if_neg (by omega)]
      rfl
    have hmem1 : k1.mem (0 + 0) ∈
        (List.range (List.replicate n (0 : Nat)).length).map
          (fun i => k1.mem (0 + i)) :=
      List.mem_map.mpr
        ⟨0, List.mem_range.mpr (by rw [List.length_replicate]; exact hn), rfl⟩
    have h1 : k1.mem (0 + 0) = 1 := (List.eq_replicate_iff.mp hEq).2 _ hmem1
    rw [hmem0] at h1
    exact absurd h1 (by decide)

/-- Counterexample to C2 as stated: over the kernel model, writing a
4-GiB buffer of ones at address 0 of an all-zero, fully accessible target
and reading the same length back returns success twice, yet the bytes
read back are not the bytes written — the 32-bit count passed to
`mach_vm_write` wraps `2^32` to `0`, so nothing is written. -/
theorem roundtrip_counterexample :
    (put_address KernelOS k0 0 0 (List.replicate (2 ^ 32) 1)).1 = .ok () ∧
    (copy_address KernelOS (put_address KernelOS k0 0 0 (List.replicate (2 ^ 32) 1)).2
        0 0 (List.replicate (2 ^ 32) 0)).1 = .ok () ∧
    (copy_address KernelOS (put_address KernelOS k0 0 0 (List.replicate (2 ^ 32) 1)).2
        0 0 (List.replicate (2 ^ 32) 0)).2.1 ≠ List.replicate (2 ^ 32) 1 :=
  roundtrip_wrap_fail (2 ^ 32) (by norm_num) (Nat.mod_self _)

end ProcessMemory
